import Mathlib

/-!
Verification of the transaction-sequencing core of a permissioned ledger's
ordering service: the message-processor layer (system-channel processing,
`msgprocessor` package) and the solo single-writer sequencing loop
(`orderer/consensus/solo/consensus.go`).

The Go sources are shallowly embedded: protobuf envelopes become an inductive
datatype where marshalling an envelope into payload bytes is represented by a
dedicated constructor; collaborator interfaces (`ConsenterSupport`,
`StandardChannelSupport`, the block cutter) become structures of functions;
the sequencing goroutine becomes a step function over an explicit loop state,
driven by a list of events.
-/

namespace Fabric

/-! ## Wire data model

Modelled from the spec: protobuf message types of `protos/common` (Envelope,
Payload, ChannelHeader) are external to the two source files, so they are
reconstructed from the spec's data-model section: an envelope is a signed
payload, a payload is an optional channel header plus opaque data.  The wire
type codes NORMAL/ENDORSER, CONFIG, CONFIG_UPDATE, ORDERER_TRANSACTION are
kept abstract as an enumeration, since only their distinctness matters here.
-/

/-- Modelled from the spec: the wire message type codes referenced by the
processors (external protocol, not redefined by the sources). -/
inductive HeaderType : Type where
  | message : HeaderType
  | config : HeaderType
  | configUpdate : HeaderType
  | endorserTransaction : HeaderType
  | ordererTransaction : HeaderType
deriving DecidableEq, Repr

/-- Modelled from the spec: a channel header carries the message type code,
a version, the target channel ID and an epoch. -/
structure ChannelHeader : Type where
  headerType : HeaderType
  version : Int
  channelId : String
  epoch : Nat
deriving DecidableEq, Repr

/-- Modelled from the spec: the payload data of an envelope.  Opaque byte
strings and marshalled config envelopes are distinguished from the marshalled
form of a full envelope, which keeps the components of the marshalled
envelope so that nesting (the channel-creation ORDERER_TRANSACTION wrapping)
is representable without loss. -/
inductive PayloadData : Type where
  | bytes (b : String) : PayloadData
  | configEnvBytes (c : String) : PayloadData
  | envBytes (chdr : Option ChannelHeader) (data : PayloadData) (sig : String) : PayloadData
  | envNoPayloadBytes (sig : String) : PayloadData
deriving DecidableEq, Repr

/-- Modelled from the spec: a payload is an optional channel header plus
payload data (the header is optional because extraction can fail on
malformed messages). -/
structure Payload : Type where
  header : Option ChannelHeader
  data : PayloadData
deriving DecidableEq, Repr

/-- Modelled from the spec: an envelope is an optional payload plus a
signature. -/
structure Envelope : Type where
  payload : Option Payload
  signature : String
deriving DecidableEq, Repr

/-- Modelled from the spec: marshalling an envelope into payload bytes
(used when the channel-creation CONFIG envelope is embedded into an
ORDERER_TRANSACTION envelope). -/
def marshalEnvelope : Envelope → PayloadData
  | ⟨none, sig⟩ => .envNoPayloadBytes sig
  | ⟨some ⟨h, d⟩, sig⟩ => .envBytes h d sig

/-- Modelled from the spec: unmarshalling payload bytes back into an
envelope; fails on data that is not a marshalled envelope. -/
def unmarshalEnvelope : PayloadData → Option Envelope
  | .envNoPayloadBytes sig => some ⟨none, sig⟩
  | .envBytes h d sig => some ⟨some ⟨h, d⟩, sig⟩
  | _ => none

/-- Modelled from the spec: `utils.ChannelHeader`, which re-derives the
channel header of an envelope and fails when the envelope has no payload or
the payload has no header. -/
def channelHeaderOf (e : Envelope) : Option ChannelHeader :=
  e.payload.bind Payload.header

/-- Modelled from the spec: `utils.ChannelID`, which extracts the target
channel ID of an envelope and fails when no header can be derived. -/
def channelIDOf (e : Envelope) : Option String :=
  (channelHeaderOf e).map ChannelHeader.channelId

/-- Modelled from the spec: `utils.CreateSignedEnvelope`, which wraps payload
data into an envelope with the given header type, channel ID, version and
epoch, signed by the given signer. -/
def createSignedEnvelope (ht : HeaderType) (channelId : String) (signer : String)
    (data : PayloadData) (version : Int) (epoch : Nat) : Envelope :=
  { payload := some
      { header := some
          { headerType := ht
            version := version
            channelId := channelId
            epoch := epoch }
        data := data }
    signature := signer }

/-! ## The `msgprocessor` package (source: msgprocessor.go / systemchannel.go) -/

/-- Source: `msgVersion = int32(0)` in the msgprocessor package. -/
def msgVersion : Int := 0

/-- Source: `epoch = 0` in the msgprocessor package. -/
def epochConst : Nat := 0

/-- Source: `Classification` is an integer enumeration. -/
abbrev Classification := Nat

/-- Source: `NormalMsg Classification = iota` — the class of standard
(non-config) messages. -/
def NormalMsg : Classification := 0

/-- Source: `ConfigUpdateMsg` — the class of configuration related
messages. -/
def ConfigUpdateMsg : Classification := 1

/-- Error values surfaced by message processing.  `channelDoesNotExist`
embeds the source's `ErrChannelDoesNotExist`; the others model the spec's
error taxonomy (MalformedMessage, ValidationFailure, ChannelCreationFailure). -/
inductive ProcError : Type where
  | channelDoesNotExist : ProcError
  | malformedMessage (reason : String) : ProcError
  | validationFailure (reason : String) : ProcError
  | channelCreationFailure (reason : String) : ProcError
deriving DecidableEq, Repr

/-- The `StandardChannelSupport` collaborator surface consumed by the
processors: current config sequence, chain ID, local signer, and the config
manager's update application. -/
structure StandardChannelSupport : Type where
  sequence : Nat
  chainID : String
  signer : String
  proposeConfigUpdate : Envelope → Except ProcError String

/-- Modelled from the spec: the `StandardChannel` processor (its file is not
among the sources; only its wrapper `SystemChannel` is).  It validates
messages through the channel's filter pipeline, kept abstract as a
predicate. -/
structure StandardChannel : Type where
  support : StandardChannelSupport
  filtersAccept : Envelope → Bool

/-- Modelled from the spec: `StandardChannel.ProcessNormalMsg` reports the
configuration sequence validated against and fails with ValidationFailure
when the filter pipeline rejects the message. -/
def StandardChannel.ProcessNormalMsg (s : StandardChannel) (env : Envelope) :
    Except ProcError Nat :=
  if s.filtersAccept env then .ok s.support.sequence
  else .error (.validationFailure "filter rejected message")

/-- Modelled from the spec: `StandardChannel.ProcessConfigUpdateMsg` applies
the proposed update via the channel's config manager and wraps the result
into a CONFIG-typed envelope for the channel itself. -/
def StandardChannel.ProcessConfigUpdateMsg (s : StandardChannel) (env : Envelope) :
    Except ProcError (Envelope × Nat) :=
  match s.support.proposeConfigUpdate env with
  | .error e => .error e
  | .ok configEnv =>
      .ok (createSignedEnvelope .config s.support.chainID s.support.signer
        (.configEnvBytes configEnv) msgVersion epochConst, s.support.sequence)

/-- A template configuration manager for a channel being created
(`configtxapi.Manager`); only its `ProposeConfigUpdate` method is consumed. -/
structure ConfigManager : Type where
  proposeConfigUpdate : Envelope → Except ProcError String

/-- Source: `SystemChannelSupport` — resources needed by the system channel
processor; `NewChannelConfig` creates a template configuration manager. -/
structure SystemChannelSupport : Type where
  newChannelConfig : Envelope → Except ProcError ConfigManager

/-- Source: `SystemChannel` wraps a `StandardChannel` (struct embedding)
together with the system-channel support. -/
structure SystemChannel : Type where
  standard : StandardChannel
  systemChannelSupport : SystemChannelSupport

/-- The embedded standard channel's support, reachable in Go through struct
embedding as `s.support`. -/
def SystemChannel.support (s : SystemChannel) : StandardChannelSupport :=
  s.standard.support

/-- Source: `SystemChannel.ProcessNormalMsg` — extract the channel ID; fail
with `ErrChannelDoesNotExist` when it differs from the system chain ID,
otherwise delegate to the embedded standard channel. -/
def SystemChannel.ProcessNormalMsg (s : SystemChannel) (msg : Envelope) :
    Except ProcError Nat :=
  match channelIDOf msg with
  | none => .error (.malformedMessage "no channel id")
  | some channelID =>
      if channelID ≠ s.support.chainID then .error .channelDoesNotExist
      else s.standard.ProcessNormalMsg msg

/-- Source: `SystemChannel.ProcessConfigUpdateMsg` — for the system channel
itself delegate to the standard channel; otherwise treat the message as a
channel-creation request: build a fresh config manager, propose the update
against it, wrap the result into a signed CONFIG envelope for the new
channel, wrap that into a signed ORDERER_TRANSACTION envelope for the system
channel, and return it with the system channel's current sequence. -/
def SystemChannel.ProcessConfigUpdateMsg (s : SystemChannel) (envConfigUpdate : Envelope) :
    Except ProcError (Envelope × Nat) :=
  match channelIDOf envConfigUpdate with
  | none => .error (.malformedMessage "no channel id")
  | some channelID =>
      if channelID = s.support.chainID then
        s.standard.ProcessConfigUpdateMsg envConfigUpdate
      else
        match s.systemChannelSupport.newChannelConfig envConfigUpdate with
        | .error e => .error e
        | .ok ctxm =>
            match ctxm.proposeConfigUpdate envConfigUpdate with
            | .error e => .error e
            | .ok newChannelConfigEnv =>
                let newChannelEnvConfig := createSignedEnvelope .config channelID
                  s.support.signer (.configEnvBytes newChannelConfigEnv) msgVersion epochConst
                let wrappedOrdererTransaction := createSignedEnvelope .ordererTransaction
                  s.support.chainID s.support.signer (marshalEnvelope newChannelEnvConfig)
                  msgVersion epochConst
                .ok (wrappedOrdererTransaction, s.support.sequence)

/-- The payload data carried by an envelope, when present. -/
def envelopeData (e : Envelope) : Option PayloadData :=
  e.payload.map Payload.data

/-! ## The solo ordering chain (source: orderer/consensus/solo/consensus.go)

The chain's goroutine `chain.main` is embedded as a step function over an
explicit loop state, driven by the three event sources of its select
statement.  The `ConsenterSupport` collaborator is a structure of functions
over an abstract block-cutter state type.
-/

/-- A committed block: the envelopes of the batch it was created from
(`CreateNextBlock`), tagged with whether it was committed through
`WriteBlock` (`isConfig = false`) or `WriteConfigBlock` (`isConfig = true`). -/
structure Block : Type where
  envs : List Envelope
  isConfig : Bool
deriving DecidableEq, Repr

/-- The `ConsenterSupport` collaborator surface consumed by `chain.main`,
over an abstract block-cutter state `σ`: `ClassifyMsg` (None models its
error result), `ProcessNormalMsg` (Some of the config sequence on success),
the block cutter's `Ordered` (returning the completed batches, the updated
cutter state and the `ok` flag) and `Cut` (returning the pending batch and
the updated cutter state), and the shared configuration's `BatchTimeout`. -/
structure ConsenterSupport (σ : Type) : Type where
  classifyMsg : ChannelHeader → Option Classification
  processNormalMsg : Envelope → Option Nat
  ordered : σ → Envelope → List (List Envelope) × σ × Bool
  cut : σ → List Envelope × σ
  batchTimeout : Nat

/-- State of the sequencing loop: the active timer (`some d` models a timer
armed with duration `d`, `none` models the nil timer), the cutter's state,
and the ledger as the list of blocks written so far, in emission order. -/
structure LoopState (σ : Type) : Type where
  timer : Option Nat
  cutter : σ
  blocks : List Block
deriving DecidableEq, Repr

/-- The three event sources of the select statement in `chain.main`: a
message received on `sendChan`, expiry of the armed timer, and the exit
signal. -/
inductive ChainEvent : Type where
  | recv (msg : Envelope) : ChainEvent
  | timerExpired : ChainEvent
  | exitSignal : ChainEvent
deriving DecidableEq, Repr

/-- Outcome of one iteration of the loop: continue with a new state, return
(exit signal), or abort the process (`logger.Panicf`). -/
inductive StepOutcome (σ : Type) : Type where
  | next (st : LoopState σ) : StepOutcome σ
  | halted (st : LoopState σ) : StepOutcome σ
  | fatal (reason : String) : StepOutcome σ
deriving DecidableEq, Repr

/-- Source: one iteration of the select loop in `chain.main`.

On a received message: re-derive the channel header (failure is fatal),
re-classify (failure is fatal).  For `ConfigUpdateMsg`: re-validate via
`ProcessNormalMsg` (on failure log, discard and continue); force-cut the
pending batch and write it as an ordinary block if non-empty; write a block
containing exactly the message via `WriteConfigBlock`; clear the timer.  For
`NormalMsg`: re-validate (on failure discard and continue); feed the message
to `BlockCutter().Ordered`; if `ok` and no batch completed and no timer is
armed, arm the timer with `BatchTimeout()` and continue; otherwise write
each completed batch as a block and clear the timer when at least one batch
was written.  Any other classification is fatal.

On timer expiry: clear the timer, force-cut; if the batch is empty log a
warning and continue, otherwise write the batch as a block.

On the exit signal: return. -/
def mainStep (support : ConsenterSupport σ) (st : LoopState σ) : ChainEvent → StepOutcome σ
  | .recv msg =>
      match channelHeaderOf msg with
      | none => .fatal "header could not be re-derived"
      | some chdr =>
          match support.classifyMsg chdr with
          | none => .fatal "message could not be re-classified"
          | some cls =>
              if cls = ConfigUpdateMsg then
                match support.processNormalMsg msg with
                | none => .next st
                | some _ =>
                    .next { timer := none
                            cutter := (support.cut st.cutter).2
                            blocks := (st.blocks ++
                                (if (support.cut st.cutter).1.isEmpty then []
                                 else [{ envs := (support.cut st.cutter).1, isConfig := false }])) ++
                              [{ envs := [msg], isConfig := true }] }
              else if cls = NormalMsg then
                match support.processNormalMsg msg with
                | none => .next st
                | some _ =>
                    if (support.ordered st.cutter msg).2.2 &&
                        (support.ordered st.cutter msg).1.isEmpty && st.timer.isNone then
                      .next { timer := some support.batchTimeout
                              cutter := (support.ordered st.cutter msg).2.1
                              blocks := st.blocks }
                    else
                      .next { timer := if (support.ordered st.cutter msg).1.isEmpty then st.timer
                                       else none
                              cutter := (support.ordered st.cutter msg).2.1
                              blocks := st.blocks ++
                                ((support.ordered st.cutter msg).1).map
                                  (fun b => { envs := b, isConfig := false }) }
              else .fatal "unsupported message classification"
  | .timerExpired =>
      if (support.cut st.cutter).1.length = 0 then
        .next { timer := none, cutter := (support.cut st.cutter).2, blocks := st.blocks }
      else
        .next { timer := none
                cutter := (support.cut st.cutter).2
                blocks := st.blocks ++ [{ envs := (support.cut st.cutter).1, isConfig := false }] }
  | .exitSignal => .halted st

/-- Outcome of running the loop over a list of events. -/
inductive RunOutcome (σ : Type) : Type where
  | running (st : LoopState σ) : RunOutcome σ
  | halted (st : LoopState σ) : RunOutcome σ
  | fatal (reason : String) : RunOutcome σ
deriving DecidableEq, Repr

/-- Source: the loop of `chain.main`, iterated over a list of events. -/
def runLoop (support : ConsenterSupport σ) (st : LoopState σ) : List ChainEvent → RunOutcome σ
  | [] => .running st
  | e :: es =>
      match mainStep support st e with
      | .next st1 => runLoop support st1 es
      | .halted st1 => .halted st1
      | .fatal r => .fatal r

/-- The state at the end of a run, when the loop did not abort. -/
def RunOutcome.finalState : RunOutcome σ → Option (LoopState σ)
  | .running st => some st
  | .halted st => some st
  | .fatal _ => none

/-- The loop state at chain start: nil timer, the given cutter state, no
blocks written. -/
def initialState (c0 : σ) : LoopState σ :=
  { timer := none, cutter := c0, blocks := [] }

/-- The valid messages admitted by one event: a received envelope whose
header re-derives, whose class is one of the two supported ones and which
passes re-validation; timer and exit events admit nothing. -/
def admittedBy (support : ConsenterSupport σ) : ChainEvent → List Envelope
  | .recv msg =>
      match channelHeaderOf msg with
      | none => []
      | some chdr =>
          match support.classifyMsg chdr with
          | none => []
          | some cls =>
              if cls = ConfigUpdateMsg ∨ cls = NormalMsg then
                match support.processNormalMsg msg with
                | none => []
                | some _ => [msg]
              else []
  | .timerExpired => []
  | .exitSignal => []

/-- The valid messages admitted over a list of events, in admission order. -/
def admittedList (support : ConsenterSupport σ) (events : List ChainEvent) : List Envelope :=
  (events.map (admittedBy support)).flatten

/-- The envelopes of the written blocks, concatenated in emission order. -/
def blocksFlat (st : LoopState σ) : List Envelope :=
  (st.blocks.map Block.envs).flatten

/-- The block cutter's contract, relating its abstract state to the pending
batch it holds: `Ordered` accepts the message (`ok`), redistributing the
previous pending batch plus the message into the completed batches and the
new pending batch in order, and `Cut` returns exactly the pending batch and
leaves an empty one. -/
structure CutterContract (support : ConsenterSupport σ) (pending : σ → List Envelope) : Prop where
  ordered_ok : ∀ c m, (support.ordered c m).2.2 = true
  ordered_eq : ∀ c m,
    pending c ++ [m] = ((support.ordered c m).1).flatten ++ pending (support.ordered c m).2.1
  cut_eq : ∀ c, (support.cut c).1 = pending c
  cut_empty : ∀ c, pending (support.cut c).2 = []

/-- The chain's admission/shutdown state: whether `exitChan` has been
closed. -/
structure ChainState : Type where
  exitClosed : Bool
deriving DecidableEq, Repr

/-- Source: `chain.Halt` — close `exitChan` unless it is already closed
(allowing multiple halts without panic).  Returns the new state and whether
this call performed the close. -/
def ChainState.Halt (s : ChainState) : ChainState × Bool :=
  if s.exitClosed then (s, false) else ({ exitClosed := true }, true)

/-- `Halt` invoked `n` times in sequence: the final state and how many of
the calls performed the close. -/
def haltTimes : Nat → ChainState → ChainState × Nat
  | 0, s => (s, 0)
  | n + 1, s =>
      ((haltTimes n s.Halt.1).1, (if s.Halt.2 then 1 else 0) + (haltTimes n s.Halt.1).2)

/-- Source: `chain.Errored` returns `exitChan`; the returned signal is ready
exactly when that channel has been closed. -/
def ChainState.Errored (s : ChainState) : Bool :=
  s.exitClosed

/-- Source: `chain.Order` — the admission hand-off: the select either
delivers the envelope to the loop (modelled by returning the delivered
envelope) or observes the exit signal and fails with the `Exiting` error. -/
def ChainState.Order (s : ChainState) (env : Envelope) (configSeq : Nat) :
    Except String Envelope :=
  if s.exitClosed then .error "Exiting" else .ok env

/-- Source: `chain.Configure` — forwards the config envelope to `Order`,
ignoring the config-update envelope. -/
def ChainState.Configure (s : ChainState) (configUpdate : Envelope) (config : Envelope)
    (configSeq : Nat) : Except String Envelope :=
  s.Order config configSeq

/-! ## Concrete fixtures used by witness theorems -/

/-- A concrete standard-channel support for the system channel `"system"` at
config sequence 7. -/
def wStdSupport : StandardChannelSupport :=
  { sequence := 7, chainID := "system", signer := "orderer",
    proposeConfigUpdate := fun _ => .ok "ownconfig" }

/-- A concrete system channel whose collaborators always succeed. -/
def wSysChannel : SystemChannel :=
  { standard := { support := wStdSupport, filtersAccept := fun _ => true },
    systemChannelSupport :=
      { newChannelConfig := fun _ =>
          .ok { proposeConfigUpdate := fun _ => .ok "newchanconfig" } } }

/-- A concrete channel-creation request targeting channel `"newchan"`. -/
def wNewChanUpdate : Envelope :=
  createSignedEnvelope .configUpdate "newchan" "client" (.bytes "update") 0 0

/-- A concrete normal message addressed to a non-system channel. -/
def wOtherChanMsg : Envelope :=
  createSignedEnvelope .endorserTransaction "otherchan" "client" (.bytes "tx") 0 0

/-- The envelope produced by `wSysChannel.ProcessConfigUpdateMsg` on
`wNewChanUpdate`. -/
def wC3Result : Envelope :=
  createSignedEnvelope .ordererTransaction "system" "orderer"
    (marshalEnvelope (createSignedEnvelope .config "newchan" "orderer"
      (.configEnvBytes "newchanconfig") msgVersion epochConst)) msgVersion epochConst

/-- A concrete consenter support over a list-of-pending-envelopes cutter
that completes a batch as soon as it holds two messages, classifying
CONFIG_UPDATE headers as `ConfigUpdateMsg` and everything else as
`NormalMsg`, accepting every message as valid. -/
def wCutSupport : ConsenterSupport (List Envelope) :=
  { classifyMsg := fun chdr =>
      some (if chdr.headerType = .configUpdate then ConfigUpdateMsg else NormalMsg)
    processNormalMsg := fun _ => some 0
    ordered := fun c m =>
      if 2 ≤ (c ++ [m]).length then ([c ++ [m]], ([], true)) else ([], (c ++ [m], true))
    cut := fun c => (c, [])
    batchTimeout := 10 }

/-- A consenter support that classifies every message outside the two
supported classes. -/
def wBadClassSupport : ConsenterSupport (List Envelope) :=
  { wCutSupport with classifyMsg := fun _ => some 5 }

/-- The channel header of the concrete normal test messages. -/
def wNormalHeader1 : ChannelHeader :=
  { headerType := .endorserTransaction, version := 0, channelId := "testchan", epoch := 0 }

/-- A second name for the same normal header, used with the second test
message. -/
def wNormalHeader2 : ChannelHeader :=
  wNormalHeader1

/-- Concrete normal test messages. -/
def wE1 : Envelope :=
  { payload := some { header := some wNormalHeader1, data := .bytes "tx1" }, signature := "c" }

def wE2 : Envelope :=
  { payload := some { header := some wNormalHeader2, data := .bytes "tx2" }, signature := "c" }

def wE3 : Envelope :=
  { payload := some { header := some wNormalHeader1, data := .bytes "tx3" }, signature := "c" }

/-- The channel header of the concrete config test message. -/
def wConfigHeader : ChannelHeader :=
  { headerType := .configUpdate, version := 0, channelId := "testchan", epoch := 0 }

/-- A concrete config-class test message. -/
def wConfigMsg : Envelope :=
  { payload := some { header := some wConfigHeader, data := .bytes "cfg" }, signature := "c" }

/-- An envelope with no payload, whose header cannot be re-derived. -/
def wHeaderlessMsg : Envelope :=
  { payload := none, signature := "x" }

/-- A concrete admission trace: three valid normal messages. -/
def wC1Events : List ChainEvent :=
  [.recv wE1, .recv wE2, .recv wE3]

/-- The loop state after running `wC1Events` from the initial state with the
two-message cutter: one block holding the first two messages, the third
message pending, timer armed. -/
def wC1Final : LoopState (List Envelope) :=
  { timer := some 10, cutter := [wE3], blocks := [{ envs := [wE1, wE2], isConfig := false }] }

end Fabric

namespace Fabric

/-! ## General lemmas about the wire model -/

theorem channelHeaderOf_createSignedEnvelope (ht : HeaderType) (cid signer : String)
    (data : PayloadData) (v : Int) (ep : Nat) :
    channelHeaderOf (createSignedEnvelope ht cid signer data v ep) =
      some { headerType := ht, version := v, channelId := cid, epoch := ep } := rfl

theorem channelIDOf_createSignedEnvelope (ht : HeaderType) (cid signer : String)
    (data : PayloadData) (v : Int) (ep : Nat) :
    channelIDOf (createSignedEnvelope ht cid signer data v ep) = some cid := rfl

theorem unmarshal_marshalEnvelope (e : Envelope) :
    unmarshalEnvelope (marshalEnvelope e) = some e := by
  obtain ⟨p, sig⟩ := e
  cases p with
  | none => rfl
  | some pl => obtain ⟨h, d⟩ := pl; rfl

/-! ## Theorems for claims C3 and C4 -/

/-- Claim C4: for every envelope whose target channel ID can be extracted,
`SystemChannel.ProcessNormalMsg` fails with `ErrChannelDoesNotExist` iff the
extracted channel ID differs from the system channel ID; when they agree it
delegates to the standard channel's `ProcessNormalMsg` and returns its result
unchanged. -/
theorem systemChannel_processNormalMsg_channelCheck
    (s : SystemChannel) (msg : Envelope) (cid : String)
    (hcid : channelIDOf msg = some cid) :
    (s.ProcessNormalMsg msg = .error .channelDoesNotExist ↔ cid ≠ s.support.chainID) ∧
    (cid = s.support.chainID → s.ProcessNormalMsg msg = s.standard.ProcessNormalMsg msg) := by
  unfold SystemChannel.ProcessNormalMsg
  rw [hcid]
  dsimp only
  by_cases h : cid = s.support.chainID
  · rw [if_neg (not_not_intro h)]
    refine ⟨⟨fun hres => ?_, fun hne => absurd h hne⟩, fun _ => rfl⟩
    unfold StandardChannel.ProcessNormalMsg at hres
    by_cases hf : s.standard.filtersAccept msg = true <;> simp [hf] at hres
  · rw [if_pos h]
    exact ⟨⟨fun _ => h, fun _ => rfl⟩, fun hc => absurd hc h⟩

/-- Witness for claim C4 at a concrete system channel and envelope. -/
theorem systemChannel_processNormalMsg_channelCheck_witness :
    channelIDOf wOtherChanMsg = some "otherchan" ∧
    (wSysChannel.ProcessNormalMsg wOtherChanMsg = .error .channelDoesNotExist ↔
      "otherchan" ≠ wSysChannel.support.chainID) :=
  ⟨rfl, (systemChannel_processNormalMsg_channelCheck wSysChannel wOtherChanMsg "otherchan" rfl).1⟩

/-- Claim C3: a successful channel-creation `ProcessConfigUpdateMsg` on the
system channel returns an ORDERER_TRANSACTION envelope addressed to the
system channel, whose embedded payload is a signed CONFIG envelope addressed
to the new channel, paired with the system channel's current configuration
sequence. -/
theorem systemChannel_processConfigUpdateMsg_channelCreation
    (s : SystemChannel) (env res : Envelope) (cid : String) (seq : Nat)
    (hcid : channelIDOf env = some cid)
    (hne : cid ≠ s.support.chainID)
    (hok : s.ProcessConfigUpdateMsg env = .ok (res, seq)) :
    (channelHeaderOf res).map ChannelHeader.headerType = some .ordererTransaction ∧
    channelIDOf res = some s.support.chainID ∧
    (∃ inner : Envelope,
      (envelopeData res).bind unmarshalEnvelope = some inner ∧
      (channelHeaderOf inner).map ChannelHeader.headerType = some .config ∧
      channelIDOf inner = some cid) ∧
    seq = s.support.sequence := by
  unfold SystemChannel.ProcessConfigUpdateMsg at hok
  rw [hcid] at hok
  dsimp only at hok
  rw [if_neg hne] at hok
  cases hnc : s.systemChannelSupport.newChannelConfig env with
  | error e => rw [hnc] at hok; exact absurd hok (by simp)
  | ok ctxm =>
      rw [hnc] at hok
      dsimp only at hok
      cases hpu : ctxm.proposeConfigUpdate env with
      | error e => rw [hpu] at hok; exact absurd hok (by simp)
      | ok newCfg =>
          rw [hpu] at hok
          dsimp only at hok
          simp only [Except.ok.injEq, Prod.mk.injEq] at hok
          obtain ⟨hres, hseq⟩ := hok
          subst hres hseq
          refine ⟨rfl, rfl, ⟨createSignedEnvelope .config cid s.support.signer
            (.configEnvBytes newCfg) msgVersion epochConst, ?_, rfl, rfl⟩, rfl⟩
          simpa [envelopeData, createSignedEnvelope] using
            unmarshal_marshalEnvelope (createSignedEnvelope .config cid s.support.signer
              (.configEnvBytes newCfg) msgVersion epochConst)

/-- Witness for claim C3: channel creation for `"newchan"` on the concrete
system channel `"system"`. -/
theorem systemChannel_processConfigUpdateMsg_channelCreation_witness :
    channelIDOf wNewChanUpdate = some "newchan" ∧
    "newchan" ≠ wSysChannel.support.chainID ∧
    ((channelHeaderOf wC3Result).map ChannelHeader.headerType = some .ordererTransaction ∧
      channelIDOf wC3Result = some wSysChannel.support.chainID ∧
      (∃ inner : Envelope,
        (envelopeData wC3Result).bind unmarshalEnvelope = some inner ∧
        (channelHeaderOf inner).map ChannelHeader.headerType = some .config ∧
        channelIDOf inner = some "newchan") ∧
      7 = wSysChannel.support.sequence) :=
  ⟨rfl, by decide,
    systemChannel_processConfigUpdateMsg_channelCreation wSysChannel wNewChanUpdate
      wC3Result "newchan" 7 rfl (by decide) rfl⟩

/-! ## Theorems for claims C7, C8 and C9 (chain admission and shutdown) -/

theorem halt_state (s : ChainState) : s.Halt.1 = { exitClosed := true } := by
  unfold ChainState.Halt
  by_cases h : s.exitClosed = true
  · rw [if_pos h]
    cases s
    simp_all
  · rw [if_neg h]

theorem haltTimes_closed (n : Nat) : haltTimes n { exitClosed := true } = ({ exitClosed := true }, 0) := by
  induction n with
  | zero => rfl
  | succ m ih => simp [haltTimes, ChainState.Halt, ih]

/-- Claim C7: `Halt` is idempotent — any sequence of `n ≥ 1` calls performs
the close exactly once when the chain was running (zero times when it had
already exited), ends in the same state as a single call, and the `Errored`
signal is ready exactly when the chain has halted. -/
theorem halt_idempotent (s : ChainState) (n : Nat) (h : 1 ≤ n) :
    (haltTimes n s).1 = s.Halt.1 ∧
    (haltTimes n s).2 = (if s.exitClosed then 0 else 1) ∧
    ((haltTimes n s).1).Errored = true ∧
    (s.Errored = true ↔ s.exitClosed = true) := by
  obtain ⟨m, rfl⟩ : ∃ m, n = m + 1 := ⟨n - 1, (Nat.succ_pred_eq_of_pos h).symm⟩
  have hs : s.Halt.1 = { exitClosed := true } := halt_state s
  refine ⟨?_, ?_, ?_, Iff.rfl⟩
  · show (haltTimes (m + 1) s).1 = s.Halt.1
    unfold haltTimes
    rw [hs, haltTimes_closed]
  · show (haltTimes (m + 1) s).2 = (if s.exitClosed then 0 else 1)
    unfold haltTimes
    rw [hs, haltTimes_closed]
    unfold ChainState.Halt
    by_cases hc : s.exitClosed = true
    · rw [if_pos hc]; simp [hc]
    · rw [if_neg hc]; simp [hc]
  · show ((haltTimes (m + 1) s).1).Errored = true
    unfold haltTimes
    rw [hs, haltTimes_closed]
    rfl

/-- Witness for claim C7: two `Halt` calls on a freshly started chain. -/
theorem halt_idempotent_witness :
    (1 ≤ 2) ∧
    (haltTimes 2 { exitClosed := false }).1 = (ChainState.Halt { exitClosed := false }).1 ∧
    (haltTimes 2 { exitClosed := false }).2 = 1 :=
  ⟨by decide, (halt_idempotent { exitClosed := false } 2 (by decide)).1,
    by
      have := (halt_idempotent { exitClosed := false } 2 (by decide)).2.1
      simpa using this⟩

/-- Claim C8: `Order` fails with the `Exiting` error exactly when the chain
has exited, and otherwise hands the envelope off unchanged; its outcome never
depends on the envelope's content (no validation is performed). -/
theorem order_exit_behavior (s : ChainState) (env : Envelope) (configSeq : Nat) :
    (s.Order env configSeq = .error "Exiting" ↔ s.exitClosed = true) ∧
    (s.Order env configSeq = .ok env ↔ s.exitClosed = false) ∧
    (∀ env2 : Envelope, (s.Order env configSeq).isOk = (s.Order env2 configSeq).isOk) := by
  unfold ChainState.Order
  by_cases h : s.exitClosed = true
  · rw [if_pos h]
    refine ⟨⟨fun _ => h, fun _ => rfl⟩, ⟨fun hx => ?_, fun hf => ?_⟩, fun env2 => by rw [if_pos h]⟩
    · exact absurd hx (by simp)
    · rw [h] at hf; cases hf
  · rw [if_neg h]
    refine ⟨⟨fun hx => ?_, fun ht => absurd ht h⟩, ⟨fun _ => by simpa using h, fun _ => rfl⟩,
      fun env2 => by rw [if_neg h]; rfl⟩
    exact absurd hx (by simp)

/-- Claim C9: `Configure` is observably identical to `Order` applied to the
config-result envelope: it returns exactly what `Order` returns and ignores
the config-update argument. -/
theorem configure_aliases_order (s : ChainState) (u r : Envelope) (configSeq : Nat) :
    s.Configure u r configSeq = s.Order r configSeq ∧
    (∀ u2 : Envelope, s.Configure u r configSeq = s.Configure u2 r configSeq) :=
  ⟨rfl, fun _ => rfl⟩

/-! ## Theorems for claims C2, C5, C6 and C10 (single loop iterations) -/

/-- The concrete two-message cutter satisfies the cutter contract, with the
cutter state itself as the pending batch. -/
theorem wCutContract : CutterContract wCutSupport id := by
  refine ⟨fun c m => ?_, fun c m => ?_, fun c => rfl, fun c => rfl⟩
  · dsimp only [wCutSupport]
    split <;> rfl
  · dsimp only [wCutSupport, id]
    split <;> simp

/-- Claim C2: a config-update-class message that passes re-validation makes
the loop first force-cut and, if non-empty, emit the pending batch as an
ordinary block, then emit a dedicated config block containing exactly this
one envelope through `WriteConfigBlock`, and clear the timer. -/
theorem solo_configMsg_dedicatedBlock (support : ConsenterSupport σ) (st : LoopState σ)
    (msg : Envelope) (chdr : ChannelHeader) (seq : Nat)
    (hh : channelHeaderOf msg = some chdr)
    (hcl : support.classifyMsg chdr = some ConfigUpdateMsg)
    (hp : support.processNormalMsg msg = some seq) :
    mainStep support st (.recv msg) = .next
      { timer := none
        cutter := (support.cut st.cutter).2
        blocks := (st.blocks ++
            (if (support.cut st.cutter).1.isEmpty then []
             else [{ envs := (support.cut st.cutter).1, isConfig := false }])) ++
          [{ envs := [msg], isConfig := true }] } := by
  unfold mainStep
  dsimp only
  rw [hh]
  dsimp only
  rw [hcl]
  dsimp only
  rw [if_pos rfl, hp]

/-- Witness for claim C2: a valid config message arriving while two normal
messages are pending. -/
theorem solo_configMsg_dedicatedBlock_witness :
    channelHeaderOf wConfigMsg = some wConfigHeader ∧
    wCutSupport.classifyMsg wConfigHeader = some ConfigUpdateMsg ∧
    wCutSupport.processNormalMsg wConfigMsg = some 0 ∧
    mainStep wCutSupport { timer := some 10, cutter := [wE1], blocks := [] } (.recv wConfigMsg) =
      .next { timer := none
              cutter := []
              blocks := [{ envs := [wE1], isConfig := false }, { envs := [wConfigMsg], isConfig := true }] } :=
  ⟨rfl, rfl, rfl,
    solo_configMsg_dedicatedBlock wCutSupport { timer := some 10, cutter := [wE1], blocks := [] }
      wConfigMsg wConfigHeader 0 rfl rfl rfl⟩

/-- Claim C5: after feeding a valid normal message to the cutter's `Ordered`,
if no batch completed and no timer is armed, a timer with the shared
configuration's batch timeout is armed; if one or more batches completed,
each is written as a block in order and the timer is cleared. -/
theorem solo_normalMsg_cutterOutcome (support : ConsenterSupport σ) (st : LoopState σ)
    (msg : Envelope) (chdr : ChannelHeader) (seq : Nat)
    (hh : channelHeaderOf msg = some chdr)
    (hcl : support.classifyMsg chdr = some NormalMsg)
    (hp : support.processNormalMsg msg = some seq) :
    ((support.ordered st.cutter msg).2.2 = true → (support.ordered st.cutter msg).1 = [] →
      st.timer = none →
      mainStep support st (.recv msg) = .next
        { timer := some support.batchTimeout
          cutter := (support.ordered st.cutter msg).2.1
          blocks := st.blocks }) ∧
    ((support.ordered st.cutter msg).1 ≠ [] →
      mainStep support st (.recv msg) = .next
        { timer := none
          cutter := (support.ordered st.cutter msg).2.1
          blocks := st.blocks ++
            ((support.ordered st.cutter msg).1).map (fun b => { envs := b, isConfig := false }) }) := by
  unfold mainStep
  dsimp only
  rw [hh]
  dsimp only
  rw [hcl]
  dsimp only
  rw [if_neg (by decide), if_pos rfl, hp]
  dsimp only
  constructor
  · intro hok hempty htimer
    rw [if_pos (by rw [hok, hempty, htimer]; rfl)]
  · intro hne
    have hemp : (support.ordered st.cutter msg).1.isEmpty = false := by
      cases hb : (support.ordered st.cutter msg).1 with
      | nil => exact absurd hb hne
      | cons x xs => rfl
    rw [if_neg (by rw [hemp]; simp), hemp]
    rfl

/-- Witness for claim C5, covering both branches: a first normal message
arms the timer, a second one completes a batch of two and clears it. -/
theorem solo_normalMsg_cutterOutcome_witness :
    (mainStep wCutSupport (initialState []) (.recv wE1) =
      .next { timer := some 10, cutter := [wE1], blocks := [] }) ∧
    (mainStep wCutSupport { timer := some 10, cutter := [wE1], blocks := [] } (.recv wE2) =
      .next { timer := none
              cutter := []
              blocks := [{ envs := [wE1, wE2], isConfig := false }] }) :=
  ⟨(solo_normalMsg_cutterOutcome wCutSupport (initialState []) wE1 wNormalHeader1 0
      rfl rfl rfl).1 rfl rfl rfl,
    (solo_normalMsg_cutterOutcome wCutSupport { timer := some 10, cutter := [wE1], blocks := [] }
      wE2 wNormalHeader2 0 rfl rfl rfl).2 (by decide)⟩

/-- Claim C6: on timer expiry the loop clears the timer and force-cuts; an
empty cut yields no block and leaves the pending batch unchanged (empty),
while a non-empty cut yields exactly one block containing the forced batch. -/
theorem solo_timerExpiry (support : ConsenterSupport σ) (pending : σ → List Envelope)
    (hc : CutterContract support pending) (st : LoopState σ) (d : Nat)
    (hT : st.timer = some d) :
    (pending st.cutter = [] →
      mainStep support st .timerExpired = .next
        { timer := none, cutter := (support.cut st.cutter).2, blocks := st.blocks } ∧
      pending (support.cut st.cutter).2 = pending st.cutter) ∧
    (pending st.cutter ≠ [] →
      mainStep support st .timerExpired = .next
        { timer := none
          cutter := (support.cut st.cutter).2
          blocks := st.blocks ++ [{ envs := pending st.cutter, isConfig := false }] }) := by
  constructor
  · intro hempty
    constructor
    · unfold mainStep
      dsimp only
      rw [if_pos (by rw [hc.cut_eq, hempty]; rfl)]
    · rw [hc.cut_empty, hempty]
  · intro hne
    unfold mainStep
    dsimp only
    rw [if_neg (by rw [hc.cut_eq]; exact fun hlen => hne (List.eq_nil_of_length_eq_zero hlen)),
      hc.cut_eq]

/-- Witness for claim C6, covering both branches: expiry with one pending
message emits that message as a block; expiry with nothing pending emits
nothing. -/
theorem solo_timerExpiry_witness :
    (mainStep wCutSupport { timer := some 10, cutter := [wE1], blocks := [] } .timerExpired =
      .next { timer := none, cutter := [], blocks := [{ envs := [wE1], isConfig := false }] }) ∧
    (mainStep wCutSupport { timer := some 10, cutter := [], blocks := [] } .timerExpired =
      .next { timer := none, cutter := [], blocks := [] }) :=
  ⟨(solo_timerExpiry wCutSupport id wCutContract
      { timer := some 10, cutter := [wE1], blocks := [] } 10 rfl).2 (by decide),
    ((solo_timerExpiry wCutSupport id wCutContract
      { timer := some 10, cutter := [], blocks := [] } 10 rfl).1 rfl).1⟩

/-- Claim C10: inside the loop, failure to re-derive the header, failure to
re-classify, or an unsupported classification each abort the iteration with
a fatal outcome (the process panics); none of them yields a `next` state, so
the message is never silently discarded. -/
theorem solo_reclassification_fatal (support : ConsenterSupport σ) (st : LoopState σ)
    (msg : Envelope) :
    (channelHeaderOf msg = none →
      mainStep support st (.recv msg) = .fatal "header could not be re-derived") ∧
    (∀ chdr, channelHeaderOf msg = some chdr → support.classifyMsg chdr = none →
      mainStep support st (.recv msg) = .fatal "message could not be re-classified") ∧
    (∀ chdr cls, channelHeaderOf msg = some chdr → support.classifyMsg chdr = some cls →
      cls ≠ ConfigUpdateMsg → cls ≠ NormalMsg →
      mainStep support st (.recv msg) = .fatal "unsupported message classification") ∧
    (∀ r st1, mainStep support st (.recv msg) = .fatal r →
      mainStep support st (.recv msg) ≠ .next st1) := by
  refine ⟨fun hh => ?_, fun chdr hh hcl => ?_, fun chdr cls hh hcl hcu hcn => ?_,
    fun r st1 hf => ?_⟩
  · unfold mainStep
    dsimp only
    rw [hh]
  · unfold mainStep
    dsimp only
    rw [hh]
    dsimp only
    rw [hcl]
  · unfold mainStep
    dsimp only
    rw [hh]
    dsimp only
    rw [hcl]
    dsimp only
    rw [if_neg hcu, if_neg hcn]
  · rw [hf]
    exact fun hcontra => by cases hcontra

/-- Witness for claim C10: an envelope with no payload is fatal, and so is a
classification outside the two supported classes. -/
theorem solo_reclassification_fatal_witness :
    (mainStep wCutSupport (initialState ([] : List Envelope)) (.recv wHeaderlessMsg) =
      .fatal "header could not be re-derived") ∧
    (mainStep wBadClassSupport (initialState ([] : List Envelope)) (.recv wE1) =
      .fatal "unsupported message classification") :=
  ⟨(solo_reclassification_fatal wCutSupport (initialState []) wHeaderlessMsg).1 rfl,
    (solo_reclassification_fatal wBadClassSupport (initialState []) wE1).2.2.1
      wNormalHeader1 5 rfl rfl (by decide) (by decide)⟩

/-! ## Theorems for claim C1 (the ordering guarantee)

The invariant: the envelopes of the written blocks, concatenated in emission
order, followed by the cutter's pending batch, equal the valid admitted
messages in admission order.  It is preserved by every non-fatal, non-exit
iteration of the loop, for every cutter satisfying the cutter contract.
-/

theorem flatten_map_envs_mk (l : List (List Envelope)) :
    ((l.map (fun b => ({ envs := b, isConfig := false } : Block))).map Block.envs).flatten =
      l.flatten := by
  induction l with
  | nil => rfl
  | cons x xs ih => simp only [List.map_cons, List.flatten_cons, ih]

theorem mainStep_absorbed (support : ConsenterSupport σ) (pending : σ → List Envelope)
    (hc : CutterContract support pending) (st st' : LoopState σ) (e : ChainEvent)
    (h : mainStep support st e = .next st') :
    blocksFlat st' ++ pending st'.cutter =
      (blocksFlat st ++ pending st.cutter) ++ admittedBy support e := by
  cases e with
  | exitSignal =>
      unfold mainStep at h
      dsimp only at h
      cases h
  | timerExpired =>
      unfold mainStep at h
      dsimp only at h
      by_cases hlen : (support.cut st.cutter).1.length = 0
      · rw [if_pos hlen] at h
        simp only [StepOutcome.next.injEq] at h
        subst h
        have hpend : pending st.cutter = [] := by
          rw [← hc.cut_eq st.cutter]
          exact List.eq_nil_of_length_eq_zero hlen
        simp [admittedBy, blocksFlat, hc.cut_empty, hpend]
      · rw [if_neg hlen] at h
        simp only [StepOutcome.next.injEq] at h
        subst h
        simp [admittedBy, blocksFlat, hc.cut_empty, hc.cut_eq, List.append_assoc]
  | recv msg =>
      unfold mainStep at h
      dsimp only at h
      unfold admittedBy
      dsimp only
      cases hh : channelHeaderOf msg with
      | none => rw [hh] at h; cases h
      | some chdr =>
          rw [hh] at h
          dsimp only at h ⊢
          cases hcl : support.classifyMsg chdr with
          | none => rw [hcl] at h; cases h
          | some cls =>
              rw [hcl] at h
              dsimp only at h ⊢
              by_cases hC : cls = ConfigUpdateMsg
              · rw [if_pos hC] at h
                rw [if_pos (Or.inl hC)]
                cases hp : support.processNormalMsg msg with
                | none =>
                    rw [hp] at h
                    dsimp only at h ⊢
                    simp only [StepOutcome.next.injEq] at h
                    subst h
                    simp
                | some seq =>
                    rw [hp] at h
                    dsimp only at h ⊢
                    simp only [StepOutcome.next.injEq] at h
                    subst h
                    cases hpc : pending st.cutter with
                    | nil =>
                        have hpe : (support.cut st.cutter).1.isEmpty = true := by
                          rw [hc.cut_eq st.cutter, hpc]; rfl
                        simp [blocksFlat, hpe, hpc, hc.cut_empty]
                    | cons a as =>
                        have hpe : (support.cut st.cutter).1.isEmpty = false := by
                          rw [hc.cut_eq st.cutter, hpc]; rfl
                        simp [blocksFlat, hpe, hc.cut_empty, hc.cut_eq st.cutter, hpc,
                          List.append_assoc]
              · rw [if_neg hC] at h
                by_cases hN : cls = NormalMsg
                · rw [if_pos hN] at h
                  rw [if_pos (Or.inr hN)]
                  cases hp : support.processNormalMsg msg with
                  | none =>
                      rw [hp] at h
                      dsimp only at h ⊢
                      simp only [StepOutcome.next.injEq] at h
                      subst h
                      simp
                  | some seq =>
                      rw [hp] at h
                      dsimp only at h ⊢
                      have heq := hc.ordered_eq st.cutter msg
                      by_cases harm : ((support.ordered st.cutter msg).2.2 &&
                          (support.ordered st.cutter msg).1.isEmpty && st.timer.isNone) = true
                      · rw [if_pos harm] at h
                        simp only [StepOutcome.next.injEq] at h
                        subst h
                        simp only [Bool.and_eq_true] at harm
                        have hbe : (support.ordered st.cutter msg).1 = [] :=
                          List.isEmpty_iff.mp harm.1.2
                        rw [hbe] at heq
                        simp only [List.flatten_nil, List.nil_append] at heq
                        simp [blocksFlat, ← heq, List.append_assoc]
                      · rw [if_neg harm] at h
                        simp only [StepOutcome.next.injEq] at h
                        subst h
                        simp only [blocksFlat, List.map_append, List.flatten_append,
                          flatten_map_envs_mk, List.append_assoc]
                        rw [← heq]
                · rw [if_neg hN] at h
                  cases h

theorem runLoop_absorbed (support : ConsenterSupport σ) (pending : σ → List Envelope)
    (hc : CutterContract support pending) (events : List ChainEvent) (st st' : LoopState σ)
    (h : runLoop support st events = .running st') :
    blocksFlat st' ++ pending st'.cutter =
      (blocksFlat st ++ pending st.cutter) ++ admittedList support events := by
  induction events generalizing st with
  | nil =>
      unfold runLoop at h
      simp only [RunOutcome.running.injEq] at h
      subst h
      simp [admittedList]
  | cons e es ih =>
      unfold runLoop at h
      cases hstep : mainStep support st e with
      | next st1 =>
          rw [hstep] at h
          dsimp only at h
          rw [ih st1 h, mainStep_absorbed support pending hc st st1 e hstep]
          simp [admittedList, List.append_assoc]
      | halted st1 => rw [hstep] at h; dsimp only at h; cases h
      | fatal r => rw [hstep] at h; dsimp only at h; cases h

/-- Claim C1: for every trace of events fully consumed by the running loop
and every cutter satisfying the cutter contract, starting from the initial
state, the envelopes of the emitted blocks in emission order followed by the
still-pending batch reproduce the admission order of the valid messages
exactly; consequently, when the admitted messages are pairwise distinct,
each appears in at most one block. -/
theorem solo_ordering_guarantee (support : ConsenterSupport σ) (pending : σ → List Envelope)
    (hc : CutterContract support pending) (c0 : σ) (h0 : pending c0 = [])
    (events : List ChainEvent) (st' : LoopState σ)
    (h : runLoop support (initialState c0) events = .running st') :
    blocksFlat st' ++ pending st'.cutter = admittedList support events ∧
    ((admittedList support events).Nodup → (blocksFlat st').Nodup) := by
  have habs := runLoop_absorbed support pending hc events (initialState c0) st' h
  rw [show blocksFlat (initialState c0) = [] from rfl,
    show pending (initialState c0).cutter = [] from h0] at habs
  simp only [List.append_nil, List.nil_append] at habs
  refine ⟨habs, fun hnd => ?_⟩
  have hsub : (blocksFlat st').Sublist (admittedList support events) := by
    rw [← habs]
    exact List.sublist_append_left _ _
  exact List.Nodup.sublist hsub hnd

/-- Witness for claim C1: three valid normal messages against the concrete
two-message cutter; the loop emits one block with the first two and keeps
the third pending, reproducing the admission order. -/
theorem solo_ordering_guarantee_witness :
    runLoop wCutSupport (initialState ([] : List Envelope)) wC1Events = .running wC1Final ∧
    blocksFlat wC1Final ++ wC1Final.cutter = admittedList wCutSupport wC1Events ∧
    (blocksFlat wC1Final).Nodup :=
  ⟨rfl,
    (solo_ordering_guarantee wCutSupport id wCutContract [] rfl wC1Events wC1Final rfl).1,
    (solo_ordering_guarantee wCutSupport id wCutContract [] rfl wC1Events wC1Final rfl).2
      (by decide)⟩

end Fabric
